import Mathlib

/-!
# Verification of `load_tester.py`

A shallow embedding of the load-testing tool in `src/load_tester.py` and
proofs about its aggregation, reporting and scheduling logic.

Modelling conventions:
* Python numbers are embedded as `Nat`/`Int` (counters, indices) and `ℚ`
  (measured latencies, division results).  The float literals `0.95` and
  `0.99` used for percentile indices are embedded as the exact rationals
  `95/100` and `99/100`; `int(...)` truncation of a non-negative value is
  `Nat` floor.
* Fallible Python operations (raising exceptions) return `Except String`
  (or `Except PyExn`); an exception that would propagate out of a
  function shows up as `Except.error`.
* The network environment seen by one `make_request` call is abstracted
  as an `HttpEvent`: either an HTTP response arrived (with its status
  code, its measured latency, and the result of `response.json()` —
  `none` when the body does not parse, otherwise a `PyBody` recording
  the shape the status-200 bookkeeping depends on: dict with
  absent/hashable/unhashable `server_id`, non-container scalar, or
  string/array with or without a `server_id` member), or the request
  timed out, or some other transport error was raised.
* `defaultdict(int)` counters are embedded as association lists
  `List (κ × Nat)` with a `bump` operation (`d[k] += 1`).
-/

namespace LoadTester

/-- A Python value stored in a `server_id` field, as far as the
`defaultdict` increment `server_distribution[data[...]] += 1` cares:
either hashable (usable as a key; identified here by its repr) or
unhashable (a list/dict/set, for which the increment raises
`TypeError`). -/
inductive PyVal where
  | hashable (key : String)
  | unhashable
deriving DecidableEq

/-- A parsed JSON body (`data = await response.json()`), as far as the
status-200 branch inspects it on lines 38–39:
* `dict sid` — a JSON object; `sid` is the value of its `server_id`
  field, or `none` when the field is absent;
* `scalar` — `null`, a number or a bool, for which the membership test
  `  "server_id" in data` raises `TypeError`;
* `strOrList has` — a JSON string or array, for which the membership
  test succeeds with result `has`, but `data["server_id"]` then raises
  `TypeError` when it is attempted. -/
inductive PyBody where
  | dict (sid : Option PyVal)
  | scalar
  | strOrList (has : Bool)
deriving DecidableEq

/-- What the network did for one request: a response (status code, parsed
body or `none` if `response.json()` raises, latency in ms), a timeout
(`asyncio.TimeoutError`), or any other transport error with its
`str(e)` representation. -/
inductive HttpEvent where
  | response (status : Nat) (body : Option PyBody) (latency : ℚ)
  | timeout
  | transportError (msg : String)
deriving DecidableEq

/-- The exceptions that can be raised inside the `try` block of
`make_request`: the request timeout, a body that fails to parse as
JSON, a `TypeError` from the success-path bookkeeping on a non-dict
body or unhashable `server_id` (lines 38–39), or any transport
error. -/
inductive PyExn where
  | timeoutError
  | jsonDecodeError
  | typeError (msg : String)
  | otherError (msg : String)
deriving DecidableEq

/-- The `str(e)` representation used when an exception string is appended
to the errors list.  The exact text of a JSON decode error is irrelevant
to every property below; it is modelled by a fixed string. -/
def jsonErrMsg : String := "JSONDecodeError"

def PyExn.str : PyExn → String
  | .timeoutError => "Timeout"
  | .jsonDecodeError => jsonErrMsg
  | .typeError m => m
  | .otherError m => m

/-- Increment a `defaultdict(int)` entry: `d[k] += 1`. -/
def bump {κ : Type} [DecidableEq κ] : List (κ × Nat) → κ → List (κ × Nat)
  | [], k => [(k, 1)]
  | (a, n) :: rest, k =>
      if a = k then (a, n + 1) :: rest else (a, n) :: bump rest k

/-- The `self.results` dictionary: the shared mutable aggregator dictionary built in
`LoadTester.__init__`. -/
structure Results where
  total_requests : Nat
  successful_requests : Nat
  failed_requests : Nat
  response_times : List ℚ
  server_distribution : List (String × Nat)
  status_codes : List (Nat × Nat)
  errors : List String
deriving DecidableEq

/-- The initial `self.results` value set up in `__init__`. -/
def init_results : Results :=
  { total_requests := 0
    successful_requests := 0
    failed_requests := 0
    response_times := []
    server_distribution := []
    status_codes := []
    errors := [] }

/-- The `try` block of `make_request` (lines 27–43): everything from
`session.get` to `return True`.  The result pairs the aggregator state
when the block ends with either the normal return value (`.ok true`) or
the exception that raised out of it — the mutations made before the
raise persist, since `self.results` is shared mutable state.  Note the
source awaits `response.json()` *before* mutating any counter, so a body
that does not parse raises with the aggregator untouched; on the
status-200 branch, however, the counters on lines 32–37 are already
updated when line 38 inspects the body, so a `TypeError` there raises
with those mutations in place. -/
def make_request_try (r : Results) (ev : HttpEvent) :
    Results × Except PyExn Bool :=
  match ev with
  | .timeout => (r, .error .timeoutError)
  | .transportError m => (r, .error (.otherError m))
  | .response status body response_time =>
    match body with
    | none => (r, .error .jsonDecodeError)
    | some data =>
      let r := { r with
        total_requests := r.total_requests + 1
        response_times := r.response_times ++ [response_time]
        status_codes := bump r.status_codes status }
      if status = 200 then
        let r := { r with successful_requests := r.successful_requests + 1 }
        match data with
        | .dict none => (r, .ok true)
        | .dict (some (.hashable key)) =>
            ({ r with server_distribution := bump r.server_distribution key },
              .ok true)
        | .dict (some .unhashable) =>
            (r, .error (.typeError "TypeError: unhashable type"))
        | .scalar =>
            (r, .error (.typeError "TypeError: argument is not iterable"))
        | .strOrList true =>
            (r, .error (.typeError "TypeError: invalid index type"))
        | .strOrList false => (r, .ok true)
      else
        ({ r with failed_requests := r.failed_requests + 1 }, .ok true)

/-- Function `make_request` (lines 24–52): the `try` block together with its two
handlers, `except asyncio.TimeoutError` and `except Exception as e`,
each acting on the aggregator state left by the block.  An
`Except.error` result would be an exception propagating to the caller. -/
def make_request (r : Results) (ev : HttpEvent) :
    Except PyExn (Bool × Results) :=
  match make_request_try r ev with
  | (r2, .ok b) => .ok (b, r2)
  | (r2, .error .timeoutError) =>
      .ok (false, { r2 with
        failed_requests := r2.failed_requests + 1
        errors := r2.errors ++ ["Timeout"] })
  | (r2, .error .jsonDecodeError) =>
      .ok (false, { r2 with
        failed_requests := r2.failed_requests + 1
        errors := r2.errors ++ [PyExn.str .jsonDecodeError] })
  | (r2, .error (.typeError m)) =>
      .ok (false, { r2 with
        failed_requests := r2.failed_requests + 1
        errors := r2.errors ++ [PyExn.str (.typeError m)] })
  | (r2, .error (.otherError m)) =>
      .ok (false, { r2 with
        failed_requests := r2.failed_requests + 1
        errors := r2.errors ++ [PyExn.str (.otherError m)] })

/-- The return value and post-state of one `make_request` call.  By
`make_request_ok` below this is exactly what `make_request` produces. -/
def runRequest (r : Results) (ev : HttpEvent) : Bool × Results :=
  ((make_request r ev).toOption).getD (false, r)

/-- The aggregator state after a sequence of completed request attempts
(the cumulative effect of `make_request` calls on `self.results`). -/
def runEvents (r : Results) (evs : List HttpEvent) : Results :=
  evs.foldl (fun s ev => (runRequest s ev).2) r

/-- An HTTP response arrived (any status code, parseable body or not). -/
def receivedResponse : HttpEvent → Bool
  | .response _ _ _ => true
  | _ => false

/-- An HTTP response arrived and its body parsed as JSON. -/
def isParsedResponse : HttpEvent → Bool
  | .response _ (some _) _ => true
  | _ => false

/-- A response with status 200 and a parseable body (classified
successful by `make_request`). -/
def isSuccessResponse : HttpEvent → Bool
  | .response status (some _) _ => status = 200
  | _ => false

/-- A response with a status other than 200 whose body parsed (the
non-success responses that actually reach the counting block). -/
def isNonSuccessParsed : HttpEvent → Bool
  | .response status (some _) _ => ¬ status = 200
  | _ => false

/-- A response with a status other than 200, parseable or not (the
spec's `NonSuccessStatus` classification). -/
def isReceivedNonSuccess : HttpEvent → Bool
  | .response status _ _ => ¬ status = 200
  | _ => false

/-- Whether the status-200 success-path bookkeeping on a parsed body
(lines 38–39) completes without raising: true for a dict whose
`server_id` field is absent or hashable, and for a string/array not
containing `"server_id"`; false when the membership test, the
indexing, or the distribution increment raises `TypeError`. -/
def successPathClean : PyBody → Bool
  | .dict none => true
  | .dict (some (.hashable _)) => true
  | .dict (some .unhashable) => false
  | .scalar => false
  | .strOrList has => !has

/-- The return value of one request according to the source's control
flow: `True` exactly when an HTTP response arrived, its body parsed as
JSON, and — when the status is 200 — the success-path bookkeeping on
the body raised no `TypeError`; `False` otherwise. -/
def returnsTrue : HttpEvent → Bool
  | .response status (some data) _ =>
      (decide (¬ status = 200)) || successPathClean data
  | _ => false

/-- The tally total `sum(self.results['status_codes'].values())`. -/
def sumStatusCodes (r : Results) : Nat :=
  (r.status_codes.map Prod.snd).sum

/-! ## Reporting (`print_results`)

Python's built-in `min`/`max`/indexing and the `statistics` module raise
on empty (resp. too small) inputs; they are embedded as `Except`-valued
functions whose `error` case is the exception. -/

/-- Python `/`: raises `ZeroDivisionError` on a zero divisor. -/
def pydiv (a b : ℚ) : Except String ℚ :=
  if b = 0 then .error "ZeroDivisionError" else .ok (a / b)

/-- Python list indexing `l[i]` (non-negative `i`): raises `IndexError`
out of range. -/
def pyindex (l : List ℚ) (i : Nat) : Except String ℚ :=
  if h : i < l.length then .ok (l.get ⟨i, h⟩) else .error "IndexError"

/-- Python `min` on a list: raises `ValueError` on an empty list. -/
def pymin (l : List ℚ) : Except String ℚ :=
  match l with
  | [] => .error "ValueError"
  | x :: xs => .ok (xs.foldl min x)

/-- Python `max` on a list: raises `ValueError` on an empty list. -/
def pymax (l : List ℚ) : Except String ℚ :=
  match l with
  | [] => .error "ValueError"
  | x :: xs => .ok (xs.foldl max x)

/-- Embedding of `statistics.mean`: raises `StatisticsError` on an empty list. -/
def pymean (l : List ℚ) : Except String ℚ :=
  if l = [] then .error "StatisticsError" else .ok (l.sum / l.length)

/-- Python `sorted` (ascending). -/
def pysorted (l : List ℚ) : List ℚ := l.insertionSort (· ≤ ·)

/-- Embedding of `statistics.median`: raises `StatisticsError` on an empty list. -/
def pymedian (l : List ℚ) : Except String ℚ :=
  let s := pysorted l
  let n := s.length
  if n = 0 then .error "StatisticsError"
  else if n % 2 = 1 then .ok (s.getD (n / 2) 0)
  else .ok ((s.getD (n / 2 - 1) 0 + s.getD (n / 2) 0) / 2)

/-- Embedding of `statistics.stdev`: raises `StatisticsError` on fewer than two data
points.  The source's value is the square root of this sample variance;
the embedding keeps the (rational) variance, whose domain of definition
is identical — the claims below concern only definedness. -/
def pystdev (l : List ℚ) : Except String ℚ :=
  if l.length < 2 then .error "StatisticsError"
  else
    let m := l.sum / l.length
    .ok ((l.map (fun x => (x - m) ^ 2)).sum / (l.length - 1))

/-- The `Success Rate` line (line 118):
`successful_requests / total_requests * 100`. -/
def success_rate (r : Results) : Except String ℚ :=
  (pydiv (r.successful_requests : ℚ) (r.total_requests : ℚ)).map (· * 100)

/-- The `Requests/Second` line (line 122) and the saved
`requests_per_second` field (line 181): `total_requests / total_time`. -/
def requests_per_second (r : Results) (total_time : ℚ) : Except String ℚ :=
  pydiv (r.total_requests : ℚ) total_time

/-- The three percentile values computed on lines 135–138:
`sorted_times[len//2]`, `sorted_times[int(len*0.95)]`,
`sorted_times[int(len*0.99)]`.  The float products `len*0.95` and
`len*0.99` are embedded as exact rationals, so `int(...)` is the `Nat`
division `n*95/100` (resp. `n*99/100`). -/
def percentiles (l : List ℚ) : Except String (ℚ × ℚ × ℚ) := do
  let sorted_times := pysorted l
  let p50 ← pyindex sorted_times (sorted_times.length / 2)
  let p95 ← pyindex sorted_times (sorted_times.length * 95 / 100)
  let p99 ← pyindex sorted_times (sorted_times.length * 99 / 100)
  pure (p50, p95, p99)

/-- The response-time statistics printed to the console
(lines 124–143). -/
structure TimeStatsReport where
  rtMin : ℚ
  rtMax : ℚ
  rtMean : ℚ
  rtMedian : ℚ
  rtStdev : Option ℚ
  p50 : ℚ
  p95 : ℚ
  p99 : ℚ
deriving DecidableEq

/-- The console `Response Time Statistics` block (lines 124–143): skipped
entirely (`none`) when `response_times` is empty; otherwise min, max,
mean, median, stdev only when more than one sample, then the three
percentiles. -/
def console_time_stats (l : List ℚ) :
    Except String (Option TimeStatsReport) :=
  if l = [] then .ok none
  else do
    let mn ← pymin l
    let mx ← pymax l
    let me ← pymean l
    let md ← pymedian l
    let sd ← if 1 < l.length then Except.map some (pystdev l) else .ok none
    let ps ← percentiles l
    .ok (some ⟨mn, mx, me, md, sd, ps.1, ps.2.1, ps.2.2⟩)

/-- The `response_time_stats` object written to the results file
(lines 174–179): each field guards the empty list with `... if ... else 0`
before calling the partial operation. -/
def json_time_stats (l : List ℚ) : Except String (ℚ × ℚ × ℚ × ℚ) := do
  let mn ← if l = [] then Except.ok 0 else pymin l
  let mx ← if l = [] then Except.ok 0 else pymax l
  let me ← if l = [] then Except.ok 0 else pymean l
  let md ← if l = [] then Except.ok 0 else pymedian l
  pure (mn, mx, me, md)

/-! ## `user_session` and configuration -/

/-- The endpoint picked on one loop iteration of `user_session`
(line 61): `endpoints[request_count % len(endpoints)]`.  When
`endpoints` is non-empty, `i % len < len`, so the total `getD` is the
Python indexing. -/
def selectEndpoint (endpoints : List String) (i : Nat) : String :=
  endpoints.getD (i % endpoints.length) ""

/-- The sequence of endpoints targeted by one `user_session` whose
deadline allows `fuel` loop iterations, starting from request counter
`count` (the counter starts at 0 and increments after every request). -/
def user_session_go (endpoints : List String) : Nat → Nat → List String
  | 0, _ => []
  | fuel + 1, count =>
      selectEndpoint endpoints count ::
        user_session_go endpoints fuel (count + 1)

/-- The endpoints targeted by the first `k` requests of a
`user_session` (`request_count = 0` at entry, line 57). -/
def user_session_endpoints (endpoints : List String) (k : Nat) :
    List String :=
  user_session_go endpoints k 0

/-- The configuration stored by `LoadTester.__init__` (lines 10–13). -/
structure LoadTesterCfg where
  base_url : String
  num_users : Int
  duration : Int
deriving DecidableEq

/-- Constructor `LoadTester.__init__` (lines 10–22), modelled as fallible so that a
fail-fast configuration rejection would appear as `Except.error` with
its diagnostic.  The source performs no validation and never raises, so
the embedding returns `.ok` unconditionally. -/
def LoadTester_init (base_url : String) (num_users duration : Int) :
    Except String LoadTesterCfg :=
  .ok ⟨base_url, num_users, duration⟩

/-- The user tasks created by `run_test` (lines 95–98):
`range(self.num_users)`; empty for a non-positive count. -/
def run_test_tasks (num_users : Int) : List Nat :=
  List.range num_users.toNat

/-! ## Helper lemmas -/

/-- One evaluation of `make_request` on a non-200 response with a parsed
body: the else branch on line 41. -/
theorem make_request_non200 (r : Results) (status : Nat) (data : PyBody)
    (lat : ℚ) (h : ¬ status = 200) :
    make_request r (.response status (some data) lat) =
      .ok (true, { r with
        total_requests := r.total_requests + 1
        response_times := r.response_times ++ [lat]
        status_codes := bump r.status_codes status
        failed_requests := r.failed_requests + 1 }) := by
  simp [make_request, make_request_try, h]

/-- Function `make_request` never produces an `Except.error`. -/
theorem make_request_isOk (r : Results) (ev : HttpEvent) :
    ∃ out, make_request r ev = Except.ok out := by
  cases ev with
  | timeout => exact ⟨_, rfl⟩
  | transportError m => exact ⟨_, rfl⟩
  | response status body lat =>
      cases body with
      | none => exact ⟨_, rfl⟩
      | some data =>
          by_cases h : status = 200
          · subst h
            cases data with
            | dict sid =>
                cases sid with
                | none => exact ⟨_, rfl⟩
                | some v =>
                    cases v with
                    | hashable key => exact ⟨_, rfl⟩
                    | unhashable => exact ⟨_, rfl⟩
            | scalar => exact ⟨_, rfl⟩
            | strOrList has => cases has <;> exact ⟨_, rfl⟩
          · exact ⟨_, make_request_non200 r status data lat h⟩

/-- Function `make_request` always returns normally, and `runRequest` is its
result. -/
theorem make_request_ok (r : Results) (ev : HttpEvent) :
    make_request r ev = .ok (runRequest r ev) := by
  obtain ⟨out, h⟩ := make_request_isOk r ev
  simp [runRequest, h, Except.toOption, Option.getD]

theorem sum_bump {κ : Type} [DecidableEq κ] (m : List (κ × Nat)) (k : κ) :
    ((bump m k).map Prod.snd).sum = (m.map Prod.snd).sum + 1 := by
  induction m with
  | nil => simp [bump]
  | cons p rest ih =>
      obtain ⟨a, n⟩ := p
      by_cases h : a = k <;> simp [bump, h, ih] <;> omega

/-- One step of `runRequest` on a parsed response: effect on the fields
the counting invariants mention.  These mutations (lines 32–37) happen
before the line-38 body inspection, so they hold even when that
inspection raises. -/
theorem runRequest_parsed (r : Results) (status : Nat) (data : PyBody)
    (lat : ℚ) :
    ((runRequest r (.response status (some data) lat)).2.response_times =
        r.response_times ++ [lat]) ∧
    ((runRequest r (.response status (some data) lat)).2.status_codes =
        bump r.status_codes status) ∧
    ((runRequest r (.response status (some data) lat)).2.successful_requests =
        r.successful_requests + (if status = 200 then 1 else 0)) ∧
    ((runRequest r (.response status (some data) lat)).2.total_requests =
        r.total_requests + 1) := by
  by_cases h : status = 200
  · subst h
    cases data with
    | dict sid =>
        cases sid with
        | none => exact ⟨rfl, rfl, rfl, rfl⟩
        | some v =>
            cases v with
            | hashable key => exact ⟨rfl, rfl, rfl, rfl⟩
            | unhashable => exact ⟨rfl, rfl, rfl, rfl⟩
    | scalar => exact ⟨rfl, rfl, rfl, rfl⟩
    | strOrList has => cases has <;> exact ⟨rfl, rfl, rfl, rfl⟩
  · simp [runRequest, make_request, make_request_try, h, Except.toOption,
      Option.getD]

/-- One step of `runRequest` on an event that never reaches the counting
block (timeout, transport error, unparseable body): only
`failed_requests` and `errors` change. -/
theorem runRequest_uncounted (r : Results) (ev : HttpEvent)
    (h : isParsedResponse ev = false) :
    ∃ msg, (runRequest r ev).2 =
      { r with failed_requests := r.failed_requests + 1
               errors := r.errors ++ [msg] } := by
  cases ev with
  | response status body lat =>
      cases body with
      | none => exact ⟨jsonErrMsg, rfl⟩
      | some data => simp [isParsedResponse] at h
  | timeout => exact ⟨"Timeout", rfl⟩
  | transportError m => exact ⟨m, rfl⟩

/-- Cumulative counting invariant of the aggregator: latency samples,
status-code tallies and success counts each track the parsed responses
in the event sequence. -/
theorem runEvents_counts (evs : List HttpEvent) (r : Results) :
    ((runEvents r evs).response_times.length =
        r.response_times.length + (evs.filter isParsedResponse).length) ∧
    (sumStatusCodes (runEvents r evs) =
        sumStatusCodes r + (evs.filter isParsedResponse).length) ∧
    ((runEvents r evs).successful_requests =
        r.successful_requests + (evs.filter isSuccessResponse).length) := by
  induction evs generalizing r with
  | nil => simp [runEvents]
  | cons ev rest ih =>
      have hstep : runEvents r (ev :: rest) =
          runEvents (runRequest r ev).2 rest := rfl
      rw [hstep]
      obtain ⟨ih1, ih2, ih3⟩ := ih (runRequest r ev).2
      by_cases hp : isParsedResponse ev = true
      · obtain ⟨status, data, lat, rfl⟩ :
            ∃ s d l, ev = .response s (some d) l := by
          cases ev with
          | response s b l =>
              cases b with
              | none => simp [isParsedResponse] at hp
              | some d => exact ⟨s, d, l, rfl⟩
          | timeout => simp [isParsedResponse] at hp
          | transportError m => simp [isParsedResponse] at hp
        obtain ⟨h1, h2, h3, _⟩ := runRequest_parsed r status data lat
        refine ⟨?_, ?_, ?_⟩
        · rw [ih1, h1]
          simp [hp, List.filter]
          omega
        · rw [ih2, sumStatusCodes, h2, sum_bump]
          simp only [sumStatusCodes] at *
          simp [hp, List.filter]
          omega
        · rw [ih3, h3]
          by_cases h200 : status = 200 <;>
            (simp [isSuccessResponse, h200, List.filter]; try omega)
      · have hp' : isParsedResponse ev = false := by
          simpa using hp
        obtain ⟨msg, hmsg⟩ := runRequest_uncounted r ev hp'
        have hsucc : isSuccessResponse ev = false := by
          cases ev with
          | response s b l =>
              cases b with
              | none => rfl
              | some d => simp [isParsedResponse] at hp'
          | timeout => rfl
          | transportError m => rfl
        refine ⟨?_, ?_, ?_⟩
        · rw [ih1, hmsg]; simp [List.filter, hp']
        · rw [ih2, hmsg]; simp [sumStatusCodes, List.filter, hp']
        · rw [ih3, hmsg]; simp [List.filter, hsucc]

/-- Every parsed response is either a success or a parsed non-success,
exclusively. -/
theorem parsed_split (evs : List HttpEvent) :
    (evs.filter isParsedResponse).length =
      (evs.filter isSuccessResponse).length +
        (evs.filter isNonSuccessParsed).length := by
  induction evs with
  | nil => simp
  | cons ev rest ih =>
      cases ev with
      | response s b l =>
          cases b with
          | none =>
              simpa [List.filter, isParsedResponse, isSuccessResponse,
                isNonSuccessParsed] using ih
          | some d =>
              by_cases h : s = 200 <;>
                (simp [List.filter, isParsedResponse, isSuccessResponse,
                  isNonSuccessParsed, h, ih]; omega)
      | timeout =>
          simpa [List.filter, isParsedResponse, isSuccessResponse,
            isNonSuccessParsed] using ih
      | transportError m =>
          simpa [List.filter, isParsedResponse, isSuccessResponse,
            isNonSuccessParsed] using ih

/-- Truncation of an exact rational product `n * (a/b)` is `Nat`
division. -/
theorem floor_mul_frac (n a b : Nat) :
    Nat.floor ((n : ℚ) * ((a : ℚ) / (b : ℚ))) = n * a / b := by
  have hcast : (n : ℚ) * ((a : ℚ) / (b : ℚ)) =
      ((n * a : ℕ) : ℚ) / ((b : ℕ) : ℚ) := by
    push_cast
    ring
  rw [hcast, Nat.floor_div_nat, Nat.floor_natCast]

theorem pymin_ok (l : List ℚ) (h : l ≠ []) : ∃ v, pymin l = .ok v := by
  cases l with
  | nil => exact absurd rfl h
  | cons x xs => exact ⟨xs.foldl min x, rfl⟩

theorem pymax_ok (l : List ℚ) (h : l ≠ []) : ∃ v, pymax l = .ok v := by
  cases l with
  | nil => exact absurd rfl h
  | cons x xs => exact ⟨xs.foldl max x, rfl⟩

theorem pymean_ok (l : List ℚ) (h : l ≠ []) : ∃ v, pymean l = .ok v := by
  refine ⟨l.sum / l.length, ?_⟩
  simp [pymean, h]

theorem pymedian_ok (l : List ℚ) (h : l ≠ []) : ∃ v, pymedian l = .ok v := by
  have hn : (pysorted l).length ≠ 0 := by
    simpa [pysorted] using (List.length_pos.mpr h).ne.symm
  by_cases hodd : (pysorted l).length % 2 = 1
  · refine ⟨(pysorted l).getD ((pysorted l).length / 2) 0, ?_⟩
    simp [pymedian, hn, hodd]
  · refine ⟨((pysorted l).getD ((pysorted l).length / 2 - 1) 0 +
        (pysorted l).getD ((pysorted l).length / 2) 0) / 2, ?_⟩
    simp [pymedian, hn, hodd]

theorem pystdev_ok (l : List ℚ) (h : 2 ≤ l.length) :
    ∃ v, pystdev l = .ok v := by
  rw [pystdev, if_neg (by omega)]
  exact ⟨_, rfl⟩

theorem pyindex_lt (l : List ℚ) (i : Nat) (h : i < l.length) :
    pyindex l i = .ok (l.get ⟨i, h⟩) := by
  simp [pyindex, h]

theorem percentiles_ok (l : List ℚ) (h : l ≠ []) :
    ∃ p, percentiles l = .ok p := by
  have hn : 0 < (pysorted l).length := by
    simpa [pysorted] using List.length_pos.mpr h
  have h50 : (pysorted l).length / 2 < (pysorted l).length :=
    Nat.div_lt_self hn (by norm_num)
  have h95 : (pysorted l).length * 95 / 100 < (pysorted l).length := by
    rw [Nat.div_lt_iff_lt_mul (by norm_num)]
    omega
  have h99 : (pysorted l).length * 99 / 100 < (pysorted l).length := by
    rw [Nat.div_lt_iff_lt_mul (by norm_num)]
    omega
  refine ⟨((pysorted l).get ⟨_, h50⟩, (pysorted l).get ⟨_, h95⟩,
      (pysorted l).get ⟨_, h99⟩), ?_⟩
  simp [percentiles, pyindex_lt _ _ h50, pyindex_lt _ _ h95,
    pyindex_lt _ _ h99, Bind.bind, Except.bind, Pure.pure, Except.pure]

/-- Per-iteration shape of the rotation sequence: the element at index
`i` is the endpoint selected with request counter `count + i`. -/
theorem user_session_go_getD (endpoints : List String) (fuel : Nat) :
    ∀ (count i : Nat), i < fuel →
      (user_session_go endpoints fuel count).getD i "" =
        selectEndpoint endpoints (count + i) := by
  induction fuel with
  | zero => intro count i h; omega
  | succ fuel ih =>
      intro count i h
      cases i with
      | zero => simp [user_session_go]
      | succ i =>
          have hrec := ih (count + 1) i (by omega)
          have harith : count + 1 + i = count + (i + 1) := by omega
          simpa [user_session_go, harith] using hrec

/-! ## Claims -/

/-- Claim C1 (refuted, code bug): the source increments `total_requests`
only on the response path of `make_request`, never in the timeout or
transport-error handlers, so after a single timed-out request
`failed_requests = 1` while `total_requests = 0` and the invariant
`successful_requests + failed_requests = total_requests` fails. -/
theorem C1_timeout_skips_total_requests :
    (runEvents init_results [HttpEvent.timeout]).total_requests = 0 ∧
    (runEvents init_results [HttpEvent.timeout]).successful_requests = 0 ∧
    (runEvents init_results [HttpEvent.timeout]).failed_requests = 1 ∧
    ¬ ((runEvents init_results [HttpEvent.timeout]).successful_requests +
        (runEvents init_results [HttpEvent.timeout]).failed_requests =
        (runEvents init_results [HttpEvent.timeout]).total_requests) := by
  refine ⟨rfl, rfl, rfl, ?_⟩
  decide

/-- Claim C2 (refuted, code bug): with `total_requests = 0` the
success-rate expression `successful_requests / total_requests * 100` on
line 118 raises `ZeroDivisionError` instead of reporting a defined
value; the requests-per-second expression divides by the wall-clock
time, not `total_requests`, and is 0 there. -/
theorem C2_zero_total_success_rate_raises :
    success_rate init_results = .error "ZeroDivisionError" ∧
    requests_per_second init_results 1 = .ok 0 := by
  constructor
  · simp [success_rate, pydiv, init_results, Except.map]
  · simp [requests_per_second, pydiv, init_results]

/-- Claim C3 counterexample: a status-200 response whose body does not
parse is recorded as failed, but contributes no latency sample and no
status-code tally — not one of each as the claim states. -/
theorem C3_malformed_body_cex :
    ((runRequest init_results
        (HttpEvent.response 200 none 5)).2.failed_requests = 1) ∧
    ¬ (((runRequest init_results
          (HttpEvent.response 200 none 5)).2.response_times.length = 1) ∧
       sumStatusCodes
          (runRequest init_results (HttpEvent.response 200 none 5)).2 = 1) := by
  refine ⟨rfl, ?_⟩
  decide

/-- Claim C3 as amended: a status-200 response with an unparseable body
is treated identically to a transport error, not to a non-200 response:
it is counted as failed with an error string appended, and contributes
no latency sample, no status-code tally, and no `total_requests`
increment. -/
theorem C3_malformed_body_like_transport_error (r : Results) (lat : ℚ) :
    runRequest r (HttpEvent.response 200 none lat) =
      (false, { r with failed_requests := r.failed_requests + 1
                       errors := r.errors ++ [jsonErrMsg] }) ∧
    runRequest r (HttpEvent.response 200 none lat) =
      runRequest r (HttpEvent.transportError jsonErrMsg) :=
  ⟨rfl, rfl⟩

/-- Claim C4 counterexample: a 500 response whose body does not parse
received an HTTP status, yet contributes no latency sample, so
`len(response_times)` falls short of
`successful_requests + count(NonSuccessStatus failures)`. -/
theorem C4_unparsed_response_cex :
    receivedResponse (HttpEvent.response 500 none 5) = true ∧
    isReceivedNonSuccess (HttpEvent.response 500 none 5) = true ∧
    ¬ ((runEvents init_results
          [HttpEvent.response 500 none 5]).response_times.length =
        (runEvents init_results
          [HttpEvent.response 500 none 5]).successful_requests +
          ([HttpEvent.response 500 none 5].filter
            isReceivedNonSuccess).length) := by
  refine ⟨rfl, rfl, ?_⟩
  decide

/-- Claim C4 as amended: every request that received an HTTP response
whose body parsed as JSON contributes exactly one latency sample and one
status-code tally; timeouts, transport errors and responses with
unparseable bodies contribute neither; hence
`len(response_times) = sum(status_codes.values()) =
successful_requests + count(parsed non-200 responses)`. -/
theorem C4_sample_and_tally_invariant (evs : List HttpEvent) :
    ((runEvents init_results evs).response_times.length =
        sumStatusCodes (runEvents init_results evs)) ∧
    (sumStatusCodes (runEvents init_results evs) =
        (runEvents init_results evs).successful_requests +
          (evs.filter isNonSuccessParsed).length) := by
  obtain ⟨h1, h2, h3⟩ := runEvents_counts evs init_results
  have hsplit := parsed_split evs
  constructor
  · rw [h1, h2]
    simp [init_results, sumStatusCodes]
  · rw [h2, h3]
    simp [init_results, sumStatusCodes]
    omega

/-- Claim C5: on a sorted non-empty sample list of length `n` the
percentile block returns the elements at the truncated indices `n / 2`
(P50), `⌊n * 0.95⌋` (P95) and `⌊n * 0.99⌋` (P99) of the sorted
sequence (the float literals being exact here, `int` truncation is the
`Nat` floor). -/
theorem C5_percentiles_truncated_index (l : List ℚ) (hne : l ≠ [])
    (hs : l.Sorted (· ≤ ·)) :
    percentiles l = .ok
      (l.getD (l.length / 2) 0,
       l.getD (l.length * 95 / 100) 0,
       l.getD (l.length * 99 / 100) 0) ∧
    l.length * 95 / 100 = Nat.floor ((l.length : ℚ) * (95 / 100)) ∧
    l.length * 99 / 100 = Nat.floor ((l.length : ℚ) * (99 / 100)) := by
  have hsort : pysorted l = l := hs.insertionSort_eq
  have hn : 0 < l.length := List.length_pos.mpr hne
  have h50 : l.length / 2 < l.length := Nat.div_lt_self hn (by norm_num)
  have h95 : l.length * 95 / 100 < l.length := by
    rw [Nat.div_lt_iff_lt_mul (by norm_num)]
    omega
  have h99 : l.length * 99 / 100 < l.length := by
    rw [Nat.div_lt_iff_lt_mul (by norm_num)]
    omega
  have e95 : Nat.floor ((l.length : ℚ) * (95 / 100)) =
      l.length * 95 / 100 := by
    have hc : ((l.length : ℚ) * (95 / 100)) =
        ((l.length * 95 : ℕ) : ℚ) / ((100 : ℕ) : ℚ) := by
      push_cast
      ring
    rw [hc, Nat.floor_div_nat, Nat.floor_natCast]
  have e99 : Nat.floor ((l.length : ℚ) * (99 / 100)) =
      l.length * 99 / 100 := by
    have hc : ((l.length : ℚ) * (99 / 100)) =
        ((l.length * 99 : ℕ) : ℚ) / ((100 : ℕ) : ℚ) := by
      push_cast
      ring
    rw [hc, Nat.floor_div_nat, Nat.floor_natCast]
  have hp50 := pyindex_lt l _ h50
  have hp95 := pyindex_lt l _ h95
  have hp99 := pyindex_lt l _ h99
  refine ⟨?_, e95.symm, e99.symm⟩
  simp [percentiles, hsort, hp50, hp95, hp99, Bind.bind, Except.bind,
    Pure.pure, Except.pure, List.getD_eq_getElem _ _ h50,
    List.getD_eq_getElem _ _ h95, List.getD_eq_getElem _ _ h99,
    List.getElem?_eq_getElem h50, List.getElem?_eq_getElem h95,
    List.getElem?_eq_getElem h99]

/-- Witness for C5 at the spec's example samples `[10, 20, 30, 40, 50]`:
P50 is the middle value 30, and P95/P99 both use truncated index 4, the
value 50. -/
theorem C5_percentiles_witness :
    (([10, 20, 30, 40, 50] : List ℚ) ≠ []) ∧
    ([10, 20, 30, 40, 50] : List ℚ).Sorted (· ≤ ·) ∧
    percentiles ([10, 20, 30, 40, 50] : List ℚ) = .ok (30, 50, 50) := by
  have h1 : (([10, 20, 30, 40, 50] : List ℚ) ≠ []) := by simp
  have h2 : ([10, 20, 30, 40, 50] : List ℚ).Sorted (· ≤ ·) := by
    norm_num [List.sorted_cons]
  refine ⟨h1, h2, ?_⟩
  rw [(C5_percentiles_truncated_index _ h1 h2).1]
  rfl

/-- Claim C6: for every virtual user and every non-empty endpoint list,
the request with counter `i` (counting from 0) targets
`endpoints[i % len(endpoints)]` — deterministic round-robin from
index 0. -/
theorem C6_round_robin (endpoints : List String) (k i : Nat)
    (hne : endpoints ≠ []) (hik : i < k) :
    (user_session_endpoints endpoints k).getD i "" =
      endpoints.getD (i % endpoints.length) "" := by
  have h := user_session_go_getD endpoints k 0 i hik
  simpa [user_session_endpoints, selectEndpoint] using h

/-- Witness for C6: with two endpoints, the fourth request (index 3) of
a five-request session targets endpoint `3 % 2 = 1`. -/
theorem C6_round_robin_witness :
    ((["/api/products", "/api/orders"] : List String) ≠ []) ∧ 3 < 5 ∧
    (user_session_endpoints ["/api/products", "/api/orders"] 5).getD 3 "" =
      (["/api/products", "/api/orders"] : List String).getD
        (3 % (["/api/products", "/api/orders"] : List String).length) "" := by
  refine ⟨by simp, by omega, ?_⟩
  exact C6_round_robin ["/api/products", "/api/orders"] 5 3 (by simp)
    (by omega)

/-- Claim C7 (refuted, code bug): neither `__init__` nor `run_test`
validates the configuration: a zero user count or a non-positive
duration is accepted without any diagnostic, and `run_test` simply
creates `range(num_users)` user tasks (none for 0). -/
theorem C7_init_accepts_nonpositive_config :
    LoadTester_init "http://localhost:8080" 0 60 =
      Except.ok ⟨"http://localhost:8080", 0, 60⟩ ∧
    run_test_tasks 0 = [] ∧
    LoadTester_init "http://localhost:8080" 1000 0 =
      Except.ok ⟨"http://localhost:8080", 1000, 0⟩ :=
  ⟨rfl, rfl, rfl⟩

/-- Claim C8: `make_request` never propagates an exception to its
caller — for every aggregator state and every network outcome it
returns normally, and whenever the `try` block raised, the handler
recorded the failure in the aggregator (one `failed_requests` increment
over the pre-call count and the error's string appended; neither field
is touched before any raise). -/
theorem C8_make_request_never_raises (r : Results) (ev : HttpEvent) :
    (∃ out, make_request r ev = Except.ok out) ∧
    (∀ e, (make_request_try r ev).2 = Except.error e →
      ((runRequest r ev).2.failed_requests = r.failed_requests + 1 ∧
       (runRequest r ev).2.errors = r.errors ++ [PyExn.str e])) := by
  refine ⟨make_request_isOk r ev, ?_⟩
  intro e he
  cases ev with
  | timeout =>
      cases he
      exact ⟨rfl, rfl⟩
  | transportError m =>
      cases he
      exact ⟨rfl, rfl⟩
  | response status body lat =>
      cases body with
      | none =>
          cases he
          exact ⟨rfl, rfl⟩
      | some data =>
          by_cases h : status = 200
          · subst h
            cases data with
            | dict sid =>
                cases sid with
                | none => cases he
                | some v =>
                    cases v with
                    | hashable key => cases he
                    | unhashable =>
                        cases he
                        exact ⟨rfl, rfl⟩
            | scalar =>
                cases he
                exact ⟨rfl, rfl⟩
            | strOrList has =>
                cases has with
                | true =>
                    cases he
                    exact ⟨rfl, rfl⟩
                | false => cases he
          · rw [show (make_request_try r
                (.response status (some data) lat)).2 = Except.ok true from by
                  simp [make_request_try, h]] at he
            cases he

/-- Witness for C8 on a timed-out request from the initial state. -/
theorem C8_make_request_never_raises_witness :
    (∃ out, make_request init_results HttpEvent.timeout = Except.ok out) ∧
    ((runRequest init_results HttpEvent.timeout).2.failed_requests = 1 ∧
     (runRequest init_results HttpEvent.timeout).2.errors = ["Timeout"]) := by
  refine ⟨(C8_make_request_never_raises init_results HttpEvent.timeout).1, ?_⟩
  have h := (C8_make_request_never_raises init_results HttpEvent.timeout).2
    PyExn.timeoutError rfl
  simpa [init_results, PyExn.str] using h

/-- Claim C9: the response-time statistics are always defined: the
console block is skipped when `response_times` is empty and the saved
statistics fall back to 0, every partial operation inside is applied
within its domain, and with exactly one sample the standard deviation is
skipped rather than raised. -/
theorem C9_stats_defined_on_empty_and_single (l : List ℚ) :
    (∃ o, console_time_stats l = .ok o) ∧
    (∃ j, json_time_stats l = .ok j) ∧
    (l.length = 1 → ∃ st, console_time_stats l = .ok (some st) ∧
      st.rtStdev = none) := by
  by_cases hl : l = []
  · subst hl
    refine ⟨⟨none, rfl⟩, ⟨(0, 0, 0, 0), rfl⟩, ?_⟩
    intro h
    simp at h
  · obtain ⟨mn, hmn⟩ := pymin_ok l hl
    obtain ⟨mx, hmx⟩ := pymax_ok l hl
    obtain ⟨me, hme⟩ := pymean_ok l hl
    obtain ⟨md, hmd⟩ := pymedian_ok l hl
    obtain ⟨ps, hps⟩ := percentiles_ok l hl
    by_cases hlen : 1 < l.length
    · obtain ⟨sd, hsd⟩ := pystdev_ok l (by omega)
      refine ⟨⟨some ⟨mn, mx, me, md, some sd, ps.1, ps.2.1, ps.2.2⟩, ?_⟩,
        ⟨(mn, mx, me, md), ?_⟩, ?_⟩
      · simp [console_time_stats, hl, hmn, hmx, hme, hmd, hsd, hps, hlen,
          Bind.bind, Except.bind, Except.map, Pure.pure, Except.pure]
      · simp [json_time_stats, hl, hmn, hmx, hme, hmd,
          Bind.bind, Except.bind, Pure.pure, Except.pure]
      · intro h1
        omega
    · refine ⟨⟨some ⟨mn, mx, me, md, none, ps.1, ps.2.1, ps.2.2⟩, ?_⟩,
        ⟨(mn, mx, me, md), ?_⟩, ?_⟩
      · simp [console_time_stats, hl, hmn, hmx, hme, hmd, hps, hlen,
          Bind.bind, Except.bind, Pure.pure, Except.pure]
      · simp [json_time_stats, hl, hmn, hmx, hme, hmd,
          Bind.bind, Except.bind, Pure.pure, Except.pure]
      · intro h1
        refine ⟨⟨mn, mx, me, md, none, ps.1, ps.2.1, ps.2.2⟩, ?_, rfl⟩
        simp [console_time_stats, hl, hmn, hmx, hme, hmd, hps, hlen,
          Bind.bind, Except.bind, Pure.pure, Except.pure]

/-- Witness for C9 at the single sample `[5]`: the console statistics
are defined and the standard deviation is skipped. -/
theorem C9_stats_defined_witness :
    (∃ o, console_time_stats [(5 : ℚ)] = .ok o) ∧
    (∃ st, console_time_stats [(5 : ℚ)] = .ok (some st) ∧
      st.rtStdev = none) :=
  ⟨(C9_stats_defined_on_empty_and_single [(5 : ℚ)]).1,
   (C9_stats_defined_on_empty_and_single [(5 : ℚ)]).2.2 rfl⟩

/-- Claim C10 counterexample: an HTTP response was received (status 200,
body unparseable) yet `make_request` returns `False`, refuting the
claimed equivalence between returning `True` and receiving a
response. -/
theorem C10_unparsed_response_returns_false :
    receivedResponse (HttpEvent.response 200 none 5) = true ∧
    ¬ ((runRequest init_results (HttpEvent.response 200 none 5)).1 = true) := by
  refine ⟨rfl, ?_⟩
  decide

/-- Claim C10 as amended: `make_request` returns `True` exactly when an
HTTP response was received, its body parsed as JSON, and — when the
status is 200 — the success-path bookkeeping on the body (the
`server_id` membership test, the indexing, and the distribution
increment) raised no `TypeError`; it returns `False` on timeout,
transport error, an unparseable body, or a 200 response whose parsed
body is a non-dict the bookkeeping chokes on (or carries an unhashable
`server_id`); no other value is possible. -/
theorem C10_returns_true_iff_clean (r : Results) (ev : HttpEvent) :
    (runRequest r ev).1 = returnsTrue ev := by
  cases ev with
  | timeout => rfl
  | transportError m => rfl
  | response status body lat =>
      cases body with
      | none => rfl
      | some data =>
          by_cases h : status = 200
          · subst h
            cases data with
            | dict sid =>
                cases sid with
                | none => rfl
                | some v => cases v <;> rfl
            | scalar => rfl
            | strOrList has => cases has <;> rfl
          · rw [show (runRequest r (.response status (some data) lat)).1 =
                true from by
                  simp [runRequest, make_request_non200 r status data lat h,
                    Except.toOption, Option.getD]]
            simp [returnsTrue, h]

end LoadTester
